import Mathlib

/-!
# Verification of the solar_map LED frame driver (`paris.py`)

A shallow embedding of the computational core of `paris.py`:

* physical/geometric constants and the intercardinal LED indices,
* the homogeneous-coordinate geometry kernel (`cross`,
  `get_border_intersections`, `intersect_angle_frame`),
* the angle-convention converters (`wrap_to_pi`, `wrap_to_0_2pi`,
  `northclockwise2math`), with `math.atan2 y x` modelled as the complex
  argument of `x + y*I`,
* the solar-ephemeris calculator (`calc_solar_position`),
* the pixel-buffer animator (`interpolate`, `interpolate_rgbw`, `apply`,
  `set_area`) over idealized exact arithmetic (Python floats are modelled
  by `ℝ`/`ℚ`, byte cells by `ℤ`, `int(...)` by truncation toward zero,
  Python `//` on integers by `Int.fdiv`).

Theorems at the end settle the frozen specification claims.
-/

namespace Paris

/-! ## Constants (src/paris.py lines 9-30) -/

/-- number of leds -/
def n : ℕ := 180

/-- numbers of leds in width -/
def cols : ℕ := 54

/-- numbers of leds in height -/
def rows : ℕ := 36

/-- led index at the south east intercardinal direction -/
def south_east : ℕ := 0

/-- led index at the south west intercardinal direction -/
def south_west : ℕ := cols

/-- led index at the north west intercardinal direction -/
def north_west : ℕ := cols + rows

/-- led index at the north east intercardinal direction -/
def north_east : ℕ := 2 * cols + rows

/-- The four sides of the frame (the Python code uses the strings
of `side_map`). -/
inductive Side : Type
  | north
  | east
  | south
  | west
deriving DecidableEq, Repr

/-- The `cardinals` map: cardinal direction to
(center index, number of pixels, (start, end)). -/
def cardinals : Side → ℕ × ℕ × (ℕ × ℕ)
  | Side.north => ((north_east + north_west) / 2, cols, (north_west, north_east))
  | Side.east => ((north_east + n) / 2, rows, (north_east, n))
  | Side.south => ((south_west + south_east) / 2, cols, (south_east, south_west))
  | Side.west => ((south_west + north_west) / 2, rows, (south_west, north_west))

/-- width of the frame in cm (`width = 89.5`); generic so that the geometry
kernel can be run over `ℚ` and reasoned about over `ℝ`. -/
def width (K : Type*) [LinearOrderedField K] : K := 89.5

/-- height of the frame in cm (`height = 60.5`) -/
def height (K : Type*) [LinearOrderedField K] : K := 60.5

/-! ## Small numeric helpers (src/paris.py lines 56-73) -/

section Helpers

variable {K : Type*} [LinearOrderedField K]

/-- `clamp(v, a, b) = max(min(v, b), a)` -/
def clamp {α : Type*} [LinearOrder α] (v a b : α) : α := max (min v b) a

/-- `interpolate(a, b, t) = a + clamp(t, 0., 1.) * (b - a)` -/
def interpolate (a b t : K) : K := a + clamp t 0 1 * (b - a)

/-- Python `int(...)` on a float: truncation toward zero. -/
def pyInt [FloorRing K] (x : K) : ℤ := if 0 ≤ x then ⌊x⌋ else -⌊-x⌋

/-- `interpolate_rgbw(a, b, t)`: per-channel `int(interpolate(a[i], b[i], t))`.
Byte cells are modelled as integers. -/
def interpolate_rgbw [FloorRing K] (a b : Fin 4 → ℤ) (t : K) : Fin 4 → ℤ :=
  fun i => pyInt (interpolate ((a i : K)) ((b i : K)) t)

/-- `cross(a, b)`: the 3-vector cross product used for homogeneous lines. -/
def cross (a b : K × K × K) : K × K × K :=
  (a.2.1 * b.2.2 - a.2.2 * b.2.1, a.2.2 * b.1 - a.1 * b.2.2, a.1 * b.2.1 - a.2.1 * b.1)

end Helpers

/-! ## Geometry kernel (src/paris.py lines 189-213, 165-186) -/

section Geometry

variable {K : Type*} [LinearOrderedField K]

/-- One iteration of the edge loop in `get_border_intersections`:
parallel / coincident / wrong-side rejection, then the bounds check. -/
def check_edge (w2 h2 : K) (axis : K × K × K) (s : Side) (p q : K × K × K) :
    Option (Side × K × K) :=
  let line := cross p q
  let sv := cross axis line
  if |sv.2.2| < 1e-3 then none
  else if |sv.1| < 1e-3 ∧ |sv.2.1| < 1e-3 then none
  else if 0 < sv.2.2 then none
  else
    let x := sv.1 / sv.2.2
    let y := sv.2.1 / sv.2.2
    if (-w2 - 1e-3 < x ∧ x < w2 + 1e-3) ∧ (-h2 - 1e-3 < y ∧ y < h2 + 1e-3) then
      some (s, x, y)
    else none

/-- `get_border_intersections(width, height, axis)`: tests the four frame
edges in the fixed order north, east, south, west and returns the first
admissible intersection (side name and Cartesian point), or `none`. -/
def get_border_intersections (width height : K) (axis : K × K × K) :
    Option (Side × K × K) :=
  let w2 := width / 2
  let h2 := height / 2
  let nw : K × K × K := (-w2, h2, 1)
  let ne : K × K × K := (w2, h2, 1)
  let se : K × K × K := (w2, -h2, 1)
  let sw : K × K × K := (-w2, -h2, 1)
  ((check_edge w2 h2 axis Side.north nw ne).orElse fun _ =>
    (check_edge w2 h2 axis Side.east ne se).orElse fun _ =>
      (check_edge w2 h2 axis Side.south se sw).orElse fun _ =>
        check_edge w2 h2 axis Side.west sw nw)

/-- The perimeter unwinding of `intersect_angle_frame`: centimeters on the
stripe walked from the south-edge midpoint. -/
def unwind_cm (side : Side) (x y : K) : K :=
  match side with
  | Side.south => -x + width K / 2
  | Side.west => width K + y + height K / 2
  | Side.north => width K + height K + x + width K / 2
  | Side.east => 2 * width K + height K - y + height K / 2

/-- Body of `intersect_angle_frame` after the ray direction
`(cos angle, sin angle)` has been formed: build the homogeneous line
through the origin, intersect with the frame, unwind to centimeters, get
the led at length (0.6 leds per cm) as `int(round(cm * 0.6 - 1))`, and
return the sanity clamped value. -/
def intersect_line_frame [FloorRing K] (c s : K) : Option ℤ :=
  (get_border_intersections (width K) (height K) (cross ((0 : K), 0, 1) (c, s, 1))).map
    fun r => clamp (round (unwind_cm r.1 r.2.1 r.2.2 * 0.6 - 1)) 0 ((n : ℤ) - 1)

/-- `intersect_angle_frame(angle)` over the reals. -/
noncomputable def intersect_angle_frame (angle : ℝ) : Option ℤ :=
  intersect_line_frame (Real.cos angle) (Real.sin angle)

end Geometry

/-! ## Angle conventions (src/paris.py lines 76-90)

`math.atan2 y x` is modelled by the complex argument of `x + y*I`, which
is the mathematical function the float routine approximates: it agrees
with `arctan (y/x)` for `x > 0` and takes values in `(-π, π]`. -/

/-- `math.atan2(y, x)` -/
noncomputable def atan2 (y x : ℝ) : ℝ := Complex.arg ⟨x, y⟩

/-- `wrap_to_pi(a) = atan2(sin(a), cos(a))` -/
noncomputable def wrap_to_pi (a : ℝ) : ℝ := atan2 (Real.sin a) (Real.cos a)

/-- `wrap_to_0_2pi(a) = atan2(sin(a - pi), cos(a - pi)) + pi` -/
noncomputable def wrap_to_0_2pi (a : ℝ) : ℝ :=
  atan2 (Real.sin (a - Real.pi)) (Real.cos (a - Real.pi)) + Real.pi

/-- `northclockwise2math(a)`: clockwise to counter clockwise, add 90 deg
offset from north to west, wrap to -pi,pi. -/
noncomputable def northclockwise2math (a : ℝ) : ℝ :=
  wrap_to_pi (2 * Real.pi - a + Real.pi / 2)

section AngleLemmas

open Real

lemma mk_cos_sin (a : ℝ) : (⟨Real.cos a, Real.sin a⟩ : ℂ) =
    (Real.cos a : ℂ) + (Real.sin a : ℂ) * Complex.I :=
  Complex.mk_eq_add_mul_I _ _

lemma abs_mk_cos_sin (a : ℝ) : Complex.abs ⟨Real.cos a, Real.sin a⟩ = 1 := by
  rw [Complex.abs_apply, Complex.normSq_mk]
  rw [show Real.cos a * Real.cos a + Real.sin a * Real.sin a = 1 by
    nlinarith [Real.sin_sq_add_cos_sq a]]
  exact Real.sqrt_one

lemma mk_cos_sin_ne_zero (a : ℝ) : (⟨Real.cos a, Real.sin a⟩ : ℂ) ≠ 0 := by
  intro h
  have := abs_mk_cos_sin a
  rw [h] at this
  simp at this

/-- The result of `wrap_to_pi` lies in `(-π, π]`. -/
lemma wrap_to_pi_mem (a : ℝ) : wrap_to_pi a ∈ Set.Ioc (-π) π :=
  Complex.arg_mem_Ioc _

/-- `wrap_to_pi` is the identity on `(-π, π]`. -/
lemma wrap_to_pi_eq_self {a : ℝ} (h : a ∈ Set.Ioc (-π) π) : wrap_to_pi a = a := by
  unfold wrap_to_pi atan2
  rw [mk_cos_sin, Complex.ofReal_cos, Complex.ofReal_sin]
  exact Complex.arg_cos_add_sin_mul_I h

lemma sin_wrap_to_pi (a : ℝ) : Real.sin (wrap_to_pi a) = Real.sin a := by
  unfold wrap_to_pi atan2
  rw [Complex.sin_arg, abs_mk_cos_sin]
  simp

lemma cos_wrap_to_pi (a : ℝ) : Real.cos (wrap_to_pi a) = Real.cos a := by
  unfold wrap_to_pi atan2
  rw [Complex.cos_arg (mk_cos_sin_ne_zero a), abs_mk_cos_sin]
  simp

/-- `wrap_to_pi` shifts its input by an integer multiple of `2π`. -/
lemma wrap_to_pi_sub_int (a : ℝ) : ∃ k : ℤ, wrap_to_pi a = a + k * (2 * π) := by
  have hc : Real.cos (wrap_to_pi a - a) = 1 := by
    rw [Real.cos_sub, cos_wrap_to_pi, sin_wrap_to_pi]
    nlinarith [Real.sin_sq_add_cos_sq a]
  obtain ⟨k, hk⟩ := (Real.cos_eq_one_iff _).mp hc
  exact ⟨k, by linarith⟩

lemma wrap_to_0_2pi_def (a : ℝ) : wrap_to_0_2pi a = wrap_to_pi (a - π) + π := rfl

/-- `wrap_to_0_2pi` shifts its input by an integer multiple of `2π`. -/
lemma wrap_to_0_2pi_sub_int (a : ℝ) :
    ∃ k : ℤ, wrap_to_0_2pi a = a + k * (2 * π) := by
  obtain ⟨k, hk⟩ := wrap_to_pi_sub_int (a - π)
  exact ⟨k, by rw [wrap_to_0_2pi_def, hk]; ring⟩

/-- The result of `wrap_to_0_2pi` lies in `(0, 2π]`. -/
lemma wrap_to_0_2pi_mem (a : ℝ) : wrap_to_0_2pi a ∈ Set.Ioc 0 (2 * π) := by
  have h := wrap_to_pi_mem (a - π)
  obtain ⟨h1, h2⟩ := h
  constructor
  · rw [wrap_to_0_2pi_def]; linarith
  · rw [wrap_to_0_2pi_def]; linarith

/-- `wrap_to_0_2pi` is the identity on `(0, 2π]`. -/
lemma wrap_to_0_2pi_eq_self {a : ℝ} (h : a ∈ Set.Ioc 0 (2 * π)) :
    wrap_to_0_2pi a = a := by
  rw [wrap_to_0_2pi_def, wrap_to_pi_eq_self ⟨by linarith [h.1], by linarith [h.2]⟩]
  ring

lemma sin_wrap_to_0_2pi (a : ℝ) : Real.sin (wrap_to_0_2pi a) = Real.sin a := by
  obtain ⟨k, hk⟩ := wrap_to_0_2pi_sub_int a
  rw [hk]
  exact Real.sin_add_int_mul_two_pi a k

lemma cos_wrap_to_0_2pi (a : ℝ) : Real.cos (wrap_to_0_2pi a) = Real.cos a := by
  obtain ⟨k, hk⟩ := wrap_to_0_2pi_sub_int a
  rw [hk]
  exact Real.cos_add_int_mul_two_pi a k

lemma tan_wrap_to_0_2pi (a : ℝ) : Real.tan (wrap_to_0_2pi a) = Real.tan a := by
  rw [Real.tan_eq_sin_div_cos, Real.tan_eq_sin_div_cos, sin_wrap_to_0_2pi,
    cos_wrap_to_0_2pi]

end AngleLemmas

/-! ## Pixel buffer and animator (src/paris.py lines 246-283)

Buffers `leds_0` (current) and `leds_1` (target) are byte arrays of length
`n * 4`; they are modelled as total functions `ℕ → ℤ` and the hardware
write / sleep calls, which do not change the buffers, are dropped. -/

/-- One byte write of the animator loop:
`leds_0[k] = int(interpolate(leds_0[k], leds_1[k], t))`. -/
def upd_byte (leds_1 : ℕ → ℤ) (t : ℚ) (leds_0 : ℕ → ℤ) (k : ℕ) : ℕ → ℤ :=
  Function.update leds_0 k (pyInt (interpolate ((leds_0 k : ℚ)) ((leds_1 k : ℚ)) t))

/-- The byte offsets `range(j, j + 4)` of the pixel whose first byte is `j`. -/
def pixel_bytes (j : ℕ) : List ℕ := [j, j + 1, j + 2, j + 3]

/-- The sequence of byte offsets one iteration of `apply` writes:
the four bytes of every pixel offset in `pixels` if given, else all
`range(n * 4)`. -/
def apply_bytes (pixels : Option (List ℕ)) : List ℕ :=
  match pixels with
  | some ps => ps.flatMap pixel_bytes
  | none => List.range (n * 4)

/-- One iteration of the `apply` loop at interpolation fraction `t`. -/
def apply_iteration (t : ℚ) (pixels : Option (List ℕ)) (leds_1 leds_0 : ℕ → ℤ) :
    ℕ → ℤ :=
  (apply_bytes pixels).foldl (upd_byte leds_1 t) leds_0

/-- `apply(steps, sleep, pixels)`: over `steps` iterations interpolate the
current buffer toward the target at fraction `t = (i + 1) / steps`,
returning the final current buffer (the per-step hardware writes and
sleeps do not affect the buffers). -/
def apply (steps : ℕ) (pixels : Option (List ℕ)) (leds_1 leds_0 : ℕ → ℤ) :
    ℕ → ℤ :=
  (List.range steps).foldl
    (fun cur (i : ℕ) => apply_iteration (((i : ℚ) + 1) / (steps : ℚ)) pixels leds_1 cur)
    leds_0

/-- The per-pixel color of `set_area`:
`d = 0. if size % 2 else 0.5`, `t = fabs((center - i - d) / size)`,
`color = interpolate_rgbw(primary, secondary, t)`. -/
def set_area_color (center : ℤ) (size : ℕ) (primary secondary : Fin 4 → ℤ)
    (i : ℤ) : Fin 4 → ℤ :=
  let d : ℚ := if size % 2 = 0 then 0.5 else 0
  let t : ℚ := |((center : ℚ) - (i : ℚ) - d) / (size : ℚ)|
  interpolate_rgbw primary secondary t

/-- The loop range `range(start, end)` of `set_area`:
`half = size // 2`, `start = center - half`, `end = center + half + size % 2`. -/
def set_area_range (center : ℤ) (size : ℕ) : List ℤ :=
  let half : ℤ := (size : ℤ) / 2
  let start := center - half
  let stop := center + half + (size : ℤ) % 2
  (List.range (stop - start).toNat).map fun k => start + (k : ℤ)

/-- The slice assignment `buf[index:index + 4] = bytearray(color)`. -/
def write_pixel (buf : ℕ → ℤ) (index : ℕ) (c : Fin 4 → ℤ) : ℕ → ℤ :=
  Function.update (Function.update (Function.update (Function.update
    buf index (c 0)) (index + 1) (c 1)) (index + 2) (c 2)) (index + 3) (c 3)

/-- One iteration of the `set_area` loop: compute the interpolated color,
ring-wrap the index, write the pixel and record the changed byte offset. -/
def set_area_step (center : ℤ) (size : ℕ) (primary secondary : Fin 4 → ℤ)
    (st : (ℕ → ℤ) × List ℕ) (i : ℤ) : (ℕ → ℤ) × List ℕ :=
  let color := set_area_color center size primary secondary i
  let index := (i % (n : ℤ)).toNat * 4
  (write_pixel st.1 index color, st.2 ++ [index])

/-- `set_area(center, size, primary, secondary)`: paints the ring-wrapped
window and collects the byte offsets `(i % n) * 4` of the changed leds.
The `direct` flag only selects which of the two buffers is written; the
written buffer is the explicit `buf` argument here. -/
def set_area (center : ℤ) (size : ℕ) (primary secondary : Fin 4 → ℤ)
    (buf : ℕ → ℤ) : (ℕ → ℤ) × List ℕ :=
  (set_area_range center size).foldl (set_area_step center size primary secondary)
    (buf, [])

/-! ## Basic lemmas about the animator -/

section AnimatorLemmas

variable {K : Type*} [LinearOrderedField K]

lemma clamp_one : clamp (1 : K) 0 1 = 1 := by simp [clamp]

lemma interpolate_one (a b : K) : interpolate a b 1 = b := by
  simp [interpolate, clamp]

lemma interpolate_self (a t : K) : interpolate a a t = a := by
  simp [interpolate]

lemma pyInt_intCast [FloorRing K] (m : ℤ) : pyInt ((m : K)) = m := by
  unfold pyInt
  split
  · exact Int.floor_intCast m
  · rw [show (-(m : K)) = (((-m : ℤ) : K)) by push_cast; ring, Int.floor_intCast]
    ring

lemma upd_byte_one (leds_1 leds_0 : ℕ → ℤ) (k : ℕ) :
    upd_byte leds_1 1 leds_0 k = Function.update leds_0 k (leds_1 k) := by
  unfold upd_byte
  rw [interpolate_one, pyInt_intCast]

lemma foldl_upd_byte_not_mem (leds_1 : ℕ → ℤ) (t : ℚ) (L : List ℕ) (c : ℕ → ℤ)
    (k : ℕ) (hk : k ∉ L) : (L.foldl (upd_byte leds_1 t) c) k = c k := by
  induction L generalizing c with
  | nil => rfl
  | cons j L ih =>
      rw [List.foldl_cons, ih _ (fun h => hk (List.mem_cons_of_mem _ h))]
      unfold upd_byte
      rw [Function.update_noteq (by intro h; exact hk (by rw [h]; exact List.mem_cons_self _ _))]

lemma foldl_upd_byte_one_mem (leds_1 : ℕ → ℤ) (L : List ℕ) (c : ℕ → ℤ)
    (k : ℕ) (hk : k ∈ L) : (L.foldl (upd_byte leds_1 1) c) k = leds_1 k := by
  induction L generalizing c with
  | nil => cases hk
  | cons j L ih =>
      rw [List.foldl_cons]
      by_cases hmem : k ∈ L
      · exact ih _ hmem
      · have hkj : k = j := by
          rcases List.mem_cons.mp hk with h | h
          · exact h
          · exact absurd h hmem
        rw [foldl_upd_byte_not_mem _ _ _ _ _ hmem, upd_byte_one, hkj,
          Function.update_same]

lemma apply_iteration_one (pixels : Option (List ℕ)) (leds_1 leds_0 : ℕ → ℤ)
    (k : ℕ) (hk : k ∈ apply_bytes pixels) :
    apply_iteration 1 pixels leds_1 leds_0 k = leds_1 k :=
  foldl_upd_byte_one_mem _ _ _ _ hk

end AnimatorLemmas

/-! ## Basic lemmas about `set_area` -/

/-- The channel a byte offset belongs to. -/
def byteChan (k : ℕ) : Fin 4 := ⟨k % 4, Nat.mod_lt _ (by norm_num)⟩

lemma write_pixel_apply (buf : ℕ → ℤ) (index : ℕ) (c : Fin 4 → ℤ) (k : ℕ) :
    write_pixel buf index c k =
      if k = index + 3 then c 3 else if k = index + 2 then c 2
      else if k = index + 1 then c 1 else if k = index then c 0 else buf k := by
  unfold write_pixel
  split_ifs with h3 h2 h1 h0
  · subst h3; rw [Function.update_same]
  · subst h2
    rw [Function.update_noteq (by omega), Function.update_same]
  · subst h1
    rw [Function.update_noteq (by omega), Function.update_noteq (by omega),
      Function.update_same]
  · subst h0
    rw [Function.update_noteq (by omega), Function.update_noteq (by omega),
      Function.update_noteq (by omega), Function.update_same]
  · rw [Function.update_noteq h3, Function.update_noteq h2,
      Function.update_noteq h1, Function.update_noteq h0]

lemma write_pixel_chan (buf : ℕ → ℤ) (index : ℕ) (c : Fin 4 → ℤ) (k : ℕ)
    (h4 : 4 ∣ index) (hk : k ∈ pixel_bytes index) :
    write_pixel buf index c k = c (byteChan k) := by
  rcases h4 with ⟨m, rfl⟩
  rw [write_pixel_apply]
  simp only [pixel_bytes, List.mem_cons, List.not_mem_nil, or_false] at hk
  have e0 : byteChan (4 * m) = 0 := by
    simp [byteChan, Fin.ext_iff, Nat.mul_mod_right]
  have e1 : byteChan (4 * m + 1) = 1 := by
    simp [byteChan, Fin.ext_iff, Nat.mul_add_mod]
  have e2 : byteChan (4 * m + 2) = 2 := by
    simp [byteChan, Fin.ext_iff, Nat.mul_add_mod]
  have e3 : byteChan (4 * m + 3) = 3 := by
    simp [byteChan, Fin.ext_iff, Nat.mul_add_mod]
  rcases hk with rfl | rfl | rfl | rfl
  · rw [if_neg (by omega), if_neg (by omega), if_neg (by omega), if_pos rfl, e0]
  · rw [if_neg (by omega), if_neg (by omega), if_pos rfl, e1]
  · rw [if_neg (by omega), if_pos rfl, e2]
  · rw [if_pos rfl, e3]

lemma write_pixel_not_mem (buf : ℕ → ℤ) (index : ℕ) (c : Fin 4 → ℤ) (k : ℕ)
    (hk : k ∉ pixel_bytes index) : write_pixel buf index c k = buf k := by
  rw [write_pixel_apply]
  simp only [pixel_bytes, List.mem_cons, List.not_mem_nil, or_false, not_or] at hk
  rw [if_neg hk.2.2.2, if_neg hk.2.2.1, if_neg hk.2.1, if_neg hk.1]

lemma interpolate_rgbw_self {K : Type*} [LinearOrderedField K] [FloorRing K]
    (c : Fin 4 → ℤ) (t : K) : interpolate_rgbw c c t = c := by
  funext i
  unfold interpolate_rgbw
  rw [interpolate_self, pyInt_intCast]

lemma set_area_color_self (center : ℤ) (size : ℕ) (c : Fin 4 → ℤ) (i : ℤ) :
    set_area_color center size c c i = c := by
  unfold set_area_color
  exact interpolate_rgbw_self _ _

/-- The list of changed byte offsets collected by `set_area`. -/
lemma set_area_changed (center : ℤ) (size : ℕ) (primary secondary : Fin 4 → ℤ)
    (buf : ℕ → ℤ) :
    (set_area center size primary secondary buf).2 =
      (set_area_range center size).map fun i => (i % (n : ℤ)).toNat * 4 := by
  unfold set_area
  generalize set_area_range center size = L
  have main : ∀ (L : List ℤ) (st : (ℕ → ℤ) × List ℕ),
      (L.foldl (set_area_step center size primary secondary) st).2 =
        st.2 ++ L.map fun i => (i % (n : ℤ)).toNat * 4 := by
    intro L
    induction L with
    | nil => intro st; simp
    | cons j L ih =>
        intro st
        rw [List.foldl_cons, ih]
        simp [set_area_step]
  rw [main]
  simp

lemma set_area_uniform_keep (center : ℤ) (size : ℕ) (c : Fin 4 → ℤ)
    (L : List ℤ) (st : (ℕ → ℤ) × List ℕ) (k : ℕ)
    (hk : st.1 k = c (byteChan k)) :
    (L.foldl (set_area_step center size c c) st).1 k = c (byteChan k) := by
  induction L generalizing st with
  | nil => exact hk
  | cons i L ih =>
      rw [List.foldl_cons]
      apply ih
      show (write_pixel st.1 ((i % (n : ℤ)).toNat * 4)
        (set_area_color center size c c i)) k = c (byteChan k)
      rw [set_area_color_self]
      by_cases hmem : k ∈ pixel_bytes ((i % (n : ℤ)).toNat * 4)
      · exact write_pixel_chan _ _ _ _ ⟨_, Nat.mul_comm _ _⟩ hmem
      · rw [write_pixel_not_mem _ _ _ _ hmem]
        exact hk

lemma set_area_uniform_enter (center : ℤ) (size : ℕ) (c : Fin 4 → ℤ)
    (L : List ℤ) (st : (ℕ → ℤ) × List ℕ) (k : ℕ)
    (hk : ∃ i ∈ L, k ∈ pixel_bytes ((i % (n : ℤ)).toNat * 4)) :
    (L.foldl (set_area_step center size c c) st).1 k = c (byteChan k) := by
  induction L generalizing st with
  | nil => obtain ⟨i, hi, _⟩ := hk; cases hi
  | cons j L ih =>
      rw [List.foldl_cons]
      obtain ⟨i, hi, hbytes⟩ := hk
      rcases List.mem_cons.mp hi with rfl | hi
      · apply set_area_uniform_keep
        show (write_pixel st.1 ((i % (n : ℤ)).toNat * 4)
          (set_area_color center size c c i)) k = c (byteChan k)
        rw [set_area_color_self]
        exact write_pixel_chan _ _ _ _ ⟨_, Nat.mul_comm _ _⟩ hbytes
      · exact ih _ ⟨i, hi, hbytes⟩

/-- Every changed byte offset recorded by `set_area` starts a 4-byte slice
that fits inside the `n * 4`-byte buffer. -/
lemma set_area_changed_le (center : ℤ) (size : ℕ) (primary secondary : Fin 4 → ℤ)
    (buf : ℕ → ℤ) :
    ∀ idx ∈ (set_area center size primary secondary buf).2, idx + 4 ≤ n * 4 := by
  intro idx hidx
  rw [set_area_changed] at hidx
  obtain ⟨i, _, rfl⟩ := List.mem_map.mp hidx
  have h1 : 0 ≤ i % (n : ℤ) := Int.emod_nonneg i (by norm_num [n])
  have h2 : i % (n : ℤ) < (n : ℤ) := Int.emod_lt_of_pos i (by norm_num [n])
  have hn : ((n : ℕ) : ℤ) = 180 := by norm_num [n]
  rw [hn] at h1 h2
  show (i % (n : ℤ)).toNat * 4 + 4 ≤ n * 4
  rw [show (n : ℤ) = 180 from hn, show n * 4 = 720 from rfl]
  omega

/-! ## Solar ephemeris calculator (src/paris.py lines 96-162)

`calc_solar_position` is a single Python function; its local variables are
embedded as named definitions parameterized by the inputs, in source order.
Python floats are modelled by `ℝ`; `math.radians`, `math.atan2` and the
float `%` are modelled by their exact mathematical counterparts. -/

/-- The `utime.localtime()` tuple
`(year, month, day, hour, minute, second, weekday, yearday)`. -/
structure DateTime where
  year : ℤ
  month : ℤ
  day : ℤ
  hour : ℤ
  minute : ℤ
  second : ℤ
  weekday : ℤ
  yearday : ℤ

/-- `math.radians(x) = x * pi / 180` -/
noncomputable def radians (x : ℝ) : ℝ := x * Real.pi / 180

/-- Python float `x % y`: `x - y * floor(x / y)` (sign follows the divisor;
all divisors in this file are positive). -/
noncomputable def pymod (x y : ℝ) : ℝ := x - y * ⌊x / y⌋

/-- The `jd` local: Julian-day expression with Python floor division `//`
(`Int.fdiv`). -/
def jd (year month day : ℤ) : ℤ :=
  Int.fdiv (1461 * (year + 4800 + Int.fdiv (month - 14) 12)) 4 +
    Int.fdiv (367 * (month - 2 - 12 * Int.fdiv (month - 14) 12)) 12 -
    Int.fdiv (3 * (Int.fdiv (year + 4900 + Int.fdiv (month - 14) 12) 100)) 4 +
    day - 32075

/-- The `n` local: number of days since Jan 1st 2000, 12 UTC,
`n = jd - 2451545.` -/
noncomputable def nDays (dt : DateTime) : ℝ :=
  ((jd dt.year dt.month dt.day : ℤ) : ℝ) - 2451545

/-- The `L` local after wrapping: mean ecliptical length. -/
noncomputable def L_mean (dt : DateTime) : ℝ :=
  wrap_to_0_2pi (radians 280.460 + radians 0.9856474 * nDays dt)

/-- The `g` local after wrapping: mean anomaly. -/
noncomputable def g_anom (dt : DateTime) : ℝ :=
  wrap_to_0_2pi (radians 357.528 + radians 0.9856003 * nDays dt)

/-- The `A` local after wrapping: ecliptical length. -/
noncomputable def A_ecl (dt : DateTime) : ℝ :=
  wrap_to_0_2pi (L_mean dt + radians 1.915 * Real.sin (g_anom dt) +
    radians 0.01997 * Real.sin (2 * g_anom dt))

/-- The `epsilon` local after wrapping: ecliptic inclination. -/
noncomputable def eps_incl (dt : DateTime) : ℝ :=
  wrap_to_0_2pi (radians 23.439 - radians 0.0000004 * nDays dt)

/-- The `alpha` local after wrapping: right ascension,
`a1 = atan(cos(epsilon) * tan(A))`, `a2 = a1 + pi`,
`alpha = a1 if cos(A) > 0 else a2`. -/
noncomputable def alpha (dt : DateTime) : ℝ :=
  wrap_to_0_2pi (if Real.cos (A_ecl dt) > 0 then
    Real.arctan (Real.cos (eps_incl dt) * Real.tan (A_ecl dt))
  else
    Real.arctan (Real.cos (eps_incl dt) * Real.tan (A_ecl dt)) + Real.pi)

/-- The `delta` local after wrapping: declination
`asin(sin(epsilon) * sin(A))`. -/
noncomputable def delta (dt : DateTime) : ℝ :=
  wrap_to_0_2pi (Real.arcsin (Real.sin (eps_incl dt) * Real.sin (A_ecl dt)))

/-- The `t_0` local: julian centuries since 2000. -/
noncomputable def t_0 (dt : DateTime) : ℝ := nDays dt / 36525

/-- The `theta_g_h` local: middle sidereal time in hours, reduced `% 24`. -/
noncomputable def theta_g_h (dt : DateTime) : ℝ :=
  pymod (6.697376 + 2400.05134 * t_0 dt +
    1.002738 * ((dt.hour : ℝ) + (dt.minute : ℝ) / 60)) 24

/-- The `theta` local: Greenwich hour angle plus the longitude,
`theta = theta_g_h * radians(15) + rlong`. -/
noncomputable def theta_loc (coords : ℝ × ℝ) (dt : DateTime) : ℝ :=
  theta_g_h dt * radians 15 + radians coords.2

/-- The `tau` local: local hour angle `tau = theta - alpha`. -/
noncomputable def tau (coords : ℝ × ℝ) (dt : DateTime) : ℝ :=
  theta_loc coords dt - alpha dt

/-- The `azim` local before the final convention change:
`atan2(sin(tau), cos(tau)*sin(rlat) - tan(delta)*cos(rlat))`. -/
noncomputable def azim_raw (coords : ℝ × ℝ) (dt : DateTime) : ℝ :=
  atan2 (Real.sin (tau coords dt))
    (Real.cos (tau coords dt) * Real.sin (radians coords.1) -
      Real.tan (delta dt) * Real.cos (radians coords.1))

/-- The `elev` local:
`asin(cos(delta)*cos(tau)*cos(rlat) + sin(delta)*sin(rlat))`. -/
noncomputable def elev (coords : ℝ × ℝ) (dt : DateTime) : ℝ :=
  Real.arcsin (Real.cos (delta dt) * Real.cos (tau coords dt) *
    Real.cos (radians coords.1) + Real.sin (delta dt) * Real.sin (radians coords.1))

/-- `calc_solar_position(coords, date_time)`: `(azimuth, elevation)` in
radians, the azimuth moved to north clockwise convention by
`wrap_to_pi(azim + pi)`. -/
noncomputable def calc_solar_position (coords : ℝ × ℝ) (dt : DateTime) : ℝ × ℝ :=
  (wrap_to_pi (azim_raw coords dt + Real.pi), elev coords dt)

/-! ## Scene composer (src/paris.py lines 321-378) -/

/-- default color `off` (grb order, as in the source) -/
def off : Fin 4 → ℤ := ![0, 0, 0, 0]

/-- default color `ambient` -/
def ambient : Fin 4 → ℤ := ![0, 0, 0, 5]

/-- default color `river` -/
def river : Fin 4 → ℤ := ![10, 0, 15, 0]

/-- `sun(i)`: paint the sun marker window of size 7 into the target buffer. -/
def sun (i : ℤ) (leds_1 : ℕ → ℤ) : ℕ → ℤ :=
  (set_area i 7 ![127, 255, 0, 0] ![50, 255, 0, 0] leds_1).1

/-- `moon(i)`: paint the moon marker window of size 7 into the target buffer. -/
def moon (i : ℤ) (leds_1 : ℕ → ℤ) : ℕ → ℤ :=
  (set_area i 7 ![0, 0, 200, 0] ![0, 0, 0, 10] leds_1).1

/-- The marker-consumption step of `solar`:
`if i is not None: sun(i) if elev > 0. else moon(i)` — on `None` the target
buffer is left untouched. -/
noncomputable def solar_draw (i : Option ℤ) (elev : ℝ) (leds_1 : ℕ → ℤ) :
    ℕ → ℤ :=
  match i with
  | some i => if elev > 0 then sun i leds_1 else moon i leds_1
  | none => leds_1

/-- `solar(lat_long_deg, utc_time)`: full pipeline from ephemeris to the
marker paint on the target buffer. -/
noncomputable def solar (lat_long_deg : ℝ × ℝ) (utc_time : DateTime)
    (leds_1 : ℕ → ℤ) : ℕ → ℤ :=
  solar_draw
    (intersect_angle_frame
      (northclockwise2math (calc_solar_position lat_long_deg utc_time).1))
    (calc_solar_position lat_long_deg utc_time).2 leds_1

/-- Python `value * 4` where `value` may be `None`, as in the `clock` list
comprehension `[intersect_angle_frame(...) * 4 for x in ...]`:
`None * 4` raises a `TypeError`, modelled as `Except.error`. -/
def pyMulFour : Option ℤ → Except Unit ℤ
  | some i => Except.ok (i * 4)
  | none => Except.error ()

/-- The hand-drawing stage of `clock`, parameterized by the three mapper
results: multiply each by 4 (raising on `None`), zero the current buffer and
write the three hard pixels (second hand `ambient`, minute hand `river`,
hour hand `(0,0,0,128)`). -/
def clock_hands (o_h o_m o_s : Option ℤ) : Except Unit (ℕ → ℤ) := do
  let ih ← pyMulFour o_h
  let im ← pyMulFour o_m
  let isec ← pyMulFour o_s
  pure (write_pixel (write_pixel (write_pixel (fun _ => 0) isec.toNat ambient)
    im.toNat river) ih.toNat ![0, 0, 0, 128])

/-- `clock()`: hour/minute/second angles from the wall clock, mapped through
the frame mapper and drawn as hard pixels. -/
noncomputable def clock (h m s : ℤ) : Except Unit (ℕ → ℤ) :=
  let a_h : ℝ := (((h + 1) % 12 : ℤ) + (m : ℝ) / 60) / 12 * (2 * Real.pi)
  let a_m : ℝ := (m : ℝ) / 60 * (2 * Real.pi)
  let a_s : ℝ := (s : ℝ) / 60 * (2 * Real.pi)
  clock_hands (intersect_angle_frame (northclockwise2math a_h))
    (intersect_angle_frame (northclockwise2math a_m))
    (intersect_angle_frame (northclockwise2math a_s))

/-! ## Calendar model for the Julian-day claim

The standard proleptic Gregorian calendar, used to characterize the
standard Julian day number: the unique integer day count that is 2451545
at 2000-01-01 and increases by exactly 1 from each valid date to the next. -/

/-- Gregorian leap year. -/
def isLeap (y : ℤ) : Prop := (y % 4 = 0 ∧ y % 100 ≠ 0) ∨ y % 400 = 0

instance : DecidablePred isLeap := fun y => by unfold isLeap; infer_instance

/-- Days in a month of the proleptic Gregorian calendar. -/
def days_in_month (y m : ℤ) : ℤ :=
  if m = 2 then (if isLeap y then 29 else 28)
  else if m = 4 ∨ m = 6 ∨ m = 9 ∨ m = 11 then 30
  else 31

/-- Validity of a calendar date. -/
def validDate (y m d : ℤ) : Prop :=
  1 ≤ m ∧ m ≤ 12 ∧ 1 ≤ d ∧ d ≤ days_in_month y m

instance : ∀ y m d, Decidable (validDate y m d) := fun y m d => by
  unfold validDate; infer_instance

/-- The day after a given calendar date. -/
def nextDate (y m d : ℤ) : ℤ × ℤ × ℤ :=
  if d < days_in_month y m then (y, m, d + 1)
  else if m < 12 then (y, m + 1, 1)
  else (y + 1, 1, 1)

/-! ## Evaluation of the frame mapper on the compass-south ray -/

section SouthRay

open Real

/-- Compute `round x` from rational bounds. -/
lemma round_val {K : Type*} [LinearOrderedField K] [FloorRing K] (x : K) (m : ℤ)
    (h1 : (m : K) ≤ x + 1/2) (h2 : x + 1/2 < (m : K) + 1) : round x = m := by
  rw [round_eq]
  exact Int.floor_eq_iff.mpr ⟨h1, by push_cast; linarith⟩

/-- `clamp` to a nonempty interval lands in the interval. -/
lemma clamp_mem {α : Type*} [LinearOrder α] (v a b : α) (hab : a ≤ b) :
    a ≤ clamp v a b ∧ clamp v a b ≤ b :=
  ⟨le_max_right _ _, max_le (min_le_right _ _) hab⟩

/-- The converted compass-south angle has direction `(0, -1)`:
cosine of the mapped angle. -/
lemma cos_northclockwise2math_pi : Real.cos (northclockwise2math π) = 0 := by
  unfold northclockwise2math
  rw [cos_wrap_to_pi, show 2 * π - π + π / 2 = π + π / 2 by ring, Real.cos_add]
  simp

/-- Sine of the mapped compass-south angle. -/
lemma sin_northclockwise2math_pi : Real.sin (northclockwise2math π) = -1 := by
  unfold northclockwise2math
  rw [sin_wrap_to_pi, show 2 * π - π + π / 2 = π + π / 2 by ring, Real.sin_add]
  simp

/-- The ray pointing toward negative `y` hits the south side exactly at its
midpoint `x = 0`, `y = -height/2`. -/
lemma south_line_eval :
    get_border_intersections (width ℝ) (height ℝ)
      (cross ((0:ℝ), 0, 1) ((0:ℝ), -1, 1)) = some (Side.south, 0, -30.25) := by
  norm_num [get_border_intersections, check_edge, cross, width, height,
    Option.orElse, abs_lt]

/-- Frame-mapping the ray toward negative `y` yields led index 26. -/
lemma intersect_line_frame_south : intersect_line_frame (0 : ℝ) (-1) = some 26 := by
  unfold intersect_line_frame
  rw [south_line_eval]
  simp only [Option.map_some']
  unfold unwind_cm width clamp
  rw [show (-(0:ℝ) + 89.5 / 2) * 0.6 - 1 = 25.85 by norm_num]
  rw [round_val _ 26 (by norm_num) (by norm_num)]
  norm_num [n]

/-- Frame-mapping the compass-south azimuth `π` yields led index 26. -/
lemma intersect_angle_frame_south :
    intersect_angle_frame (northclockwise2math π) = some 26 := by
  unfold intersect_angle_frame
  rw [cos_northclockwise2math_pi, sin_northclockwise2math_pi]
  exact intersect_line_frame_south

end SouthRay

/-- The degenerate axis `(0,0,0)` (built from the zero direction) is
rejected as parallel by all four edges. -/
lemma degenerate_axis_none :
    get_border_intersections (width ℝ) (height ℝ)
      (cross ((0:ℝ), 0, 1) ((0:ℝ), 0, 1)) = none := by
  norm_num [get_border_intersections, check_edge, cross,
    width, height, Option.orElse, abs_lt]

section C10Framework

open Real

lemma pi_lb : (3.14159265358979 : ℝ) < π := by
  have h := Real.pi_gt_d20
  norm_num at h ⊢
  linarith

lemma pi_ub : π < (3.1415926535898 : ℝ) := by
  have h := Real.pi_lt_d20
  norm_num at h ⊢
  linarith

lemma sin_lipschitz_pt (x m : ℝ) : |Real.sin x - Real.sin m| ≤ |x - m| := by
  rw [Real.sin_sub_sin]
  have h1 : |Real.sin ((x - m) / 2)| ≤ |(x - m) / 2| := Real.abs_sin_le_abs
  have h2 : |Real.cos ((x + m) / 2)| ≤ 1 := Real.abs_cos_le_one _
  have h3 : |2 * Real.sin ((x - m) / 2) * Real.cos ((x + m) / 2)| =
      2 * |Real.sin ((x - m) / 2)| * |Real.cos ((x + m) / 2)| := by
    rw [abs_mul, abs_mul]
    norm_num
  rw [h3]
  have h4 : |(x - m) / 2| = |x - m| / 2 := by
    rw [abs_div]
    norm_num
  nlinarith [abs_nonneg (Real.sin ((x - m) / 2)), abs_nonneg (x - m),
    abs_nonneg (Real.cos ((x + m) / 2))]

lemma cos_lipschitz_pt (x m : ℝ) : |Real.cos x - Real.cos m| ≤ |x - m| := by
  rw [Real.cos_sub_cos]
  have h1 : |Real.sin ((x - m) / 2)| ≤ |(x - m) / 2| := Real.abs_sin_le_abs
  have h2 : |Real.sin ((x + m) / 2)| ≤ 1 := Real.abs_sin_le_one _
  have h3 : |-2 * Real.sin ((x + m) / 2) * Real.sin ((x - m) / 2)| =
      2 * |Real.sin ((x + m) / 2)| * |Real.sin ((x - m) / 2)| := by
    rw [abs_mul, abs_mul]
    norm_num
  rw [h3]
  have h4 : |(x - m) / 2| = |x - m| / 2 := by
    rw [abs_div]
    norm_num
  nlinarith [abs_nonneg (Real.sin ((x - m) / 2)), abs_nonneg (x - m),
    abs_nonneg (Real.sin ((x + m) / 2))]

lemma abs_pow_four (m : ℝ) : |m| ^ 4 = m ^ 4 := by
  rw [← abs_pow]
  exact abs_of_nonneg (by positivity)

/-- Interval bounds for `sin` from the Mathlib cubic Taylor bound plus the
Lipschitz property, for arguments with absolute value at most 1. -/
lemma sin_ival (x m r lo hi : ℝ) (hm : |m| ≤ 1) (hx : |x - m| ≤ r)
    (h1 : lo ≤ m - m ^ 3 / 6 - (r + m ^ 4 * (5 / 96)))
    (h2 : m - m ^ 3 / 6 + (r + m ^ 4 * (5 / 96)) ≤ hi) :
    lo ≤ Real.sin x ∧ Real.sin x ≤ hi := by
  have tay := Real.sin_bound hm
  rw [abs_pow_four] at tay
  have lip := sin_lipschitz_pt x m
  rw [abs_le] at tay lip
  constructor <;> linarith [tay.1, tay.2, lip.1, lip.2, hx]

/-- Interval bounds for `cos`, analogous to `sin_ival`. -/
lemma cos_ival (x m r lo hi : ℝ) (hm : |m| ≤ 1) (hx : |x - m| ≤ r)
    (h1 : lo ≤ 1 - m ^ 2 / 2 - (r + m ^ 4 * (5 / 96)))
    (h2 : 1 - m ^ 2 / 2 + (r + m ^ 4 * (5 / 96)) ≤ hi) :
    lo ≤ Real.cos x ∧ Real.cos x ≤ hi := by
  have tay := Real.cos_bound hm
  rw [abs_pow_four] at tay
  have lip := cos_lipschitz_pt x m
  rw [abs_le] at tay lip
  constructor <;> linarith [tay.1, tay.2, lip.1, lip.2, hx]

/-- Shift a `sin` of a rational multiple of `π` by full turns. -/
lemma sin_qpi_reduce (a b : ℝ) (k : ℤ) (h : a = b + 2 * k) :
    Real.sin (a * π) = Real.sin (b * π) := by
  rw [h, show (b + 2 * (k : ℝ)) * π = b * π + k * (2 * π) by ring]
  exact Real.sin_add_int_mul_two_pi _ k

lemma cos_qpi_reduce (a b : ℝ) (k : ℤ) (h : a = b + 2 * k) :
    Real.cos (a * π) = Real.cos (b * π) := by
  rw [h, show (b + 2 * (k : ℝ)) * π = b * π + k * (2 * π) by ring]
  exact Real.cos_add_int_mul_two_pi _ k

lemma sin_qpi_add_reduce (a b u : ℝ) (k : ℤ) (h : a = b + 2 * k) :
    Real.sin (a * π + u) = Real.sin (b * π + u) := by
  rw [h, show (b + 2 * (k : ℝ)) * π + u = (b * π + u) + k * (2 * π) by ring]
  exact Real.sin_add_int_mul_two_pi _ k

lemma cos_qpi_add_reduce (a b u : ℝ) (k : ℤ) (h : a = b + 2 * k) :
    Real.cos (a * π + u) = Real.cos (b * π + u) := by
  rw [h, show (b + 2 * (k : ℝ)) * π + u = (b * π + u) + k * (2 * π) by ring]
  exact Real.cos_add_int_mul_two_pi _ k

/-- Interval division: `b` positive, corner conditions given. -/
lemma div_ival (a b lo hi : ℝ) (hb : 0 < b) (h1 : lo * b ≤ a) (h2 : a ≤ hi * b) :
    lo ≤ a / b ∧ a / b ≤ hi :=
  ⟨(le_div_iff hb).mpr h1, (div_le_iff hb).mpr h2⟩

/-- Interval square root from squared rational bounds. -/
lemma sqrt_ival (a lo hi : ℝ) (hlo : 0 ≤ lo) (hhi : 0 ≤ hi)
    (h1 : lo ^ 2 ≤ a) (h2 : a ≤ hi ^ 2) :
    lo ≤ Real.sqrt a ∧ Real.sqrt a ≤ hi := by
  constructor
  · calc lo = Real.sqrt (lo ^ 2) := (Real.sqrt_sq hlo).symm
      _ ≤ Real.sqrt a := Real.sqrt_le_sqrt h1
  · calc Real.sqrt a ≤ Real.sqrt (hi ^ 2) := Real.sqrt_le_sqrt h2
      _ = hi := Real.sqrt_sq hhi

/-- Product of two nonnegative intervals. -/
lemma mul_ival_pp {a b la ha lb hb : ℝ} (h1 : la ≤ a) (h2 : a ≤ ha)
    (h3 : lb ≤ b) (h4 : b ≤ hb) (h5 : 0 ≤ la) (h6 : 0 ≤ lb) :
    la * lb ≤ a * b ∧ a * b ≤ ha * hb := by
  constructor <;> nlinarith

/-- Product of a nonnegative and a nonpositive interval. -/
lemma mul_ival_pn {a b la ha lb hb : ℝ} (h1 : la ≤ a) (h2 : a ≤ ha)
    (h3 : lb ≤ b) (h4 : b ≤ hb) (h5 : 0 ≤ la) (h6 : hb ≤ 0) :
    ha * lb ≤ a * b ∧ a * b ≤ la * hb := by
  constructor <;> nlinarith

/-- Product of two nonpositive intervals. -/
lemma mul_ival_nn {a b la ha lb hb : ℝ} (h1 : la ≤ a) (h2 : a ≤ ha)
    (h3 : lb ≤ b) (h4 : b ≤ hb) (h5 : ha ≤ 0) (h6 : hb ≤ 0) :
    ha * hb ≤ a * b ∧ a * b ≤ la * lb := by
  constructor <;> nlinarith

end C10Framework

section C10Scenario

open Real

/-- The Paris coordinates used by the scene composer. -/
noncomputable def paris_lat_long : ℝ × ℝ := (48.860536, 2.332237)

/-- The demo scenario observation time 2019-01-27 12:00:00 UTC
(as passed by `solar_demo`). -/
def demo_dt : DateTime := ⟨2019, 1, 27, 12, 0, 0, 6, 27⟩

lemma jd_demo : jd 2019 1 27 = 2458513 := by decide

lemma nDays_demo : nDays demo_dt = 6968 := by
  unfold nDays demo_dt
  rw [show jd 2019 1 27 = 2458513 from jd_demo]
  norm_num

lemma sin_g_eq : Real.sin (g_anom demo_dt) =
    Real.sin ((31488613 / 225000000 : ℝ) * π) := by
  unfold g_anom
  rw [sin_wrap_to_0_2pi, nDays_demo,
    show radians 357.528 + radians 0.9856003 * (6968 : ℝ) =
      (9031488613 / 225000000 : ℝ) * π by unfold radians; ring_nf]
  exact sin_qpi_reduce _ _ 20 (by norm_num)

lemma sin_g_bounds : (0.4235 : ℝ) ≤ Real.sin (g_anom demo_dt) ∧
    Real.sin (g_anom demo_dt) ≤ 0.4275 := by
  rw [sin_g_eq]
  apply sin_ival _ 0.43966398 0.000001
  · rw [abs_le]; constructor <;> norm_num
  · rw [abs_le]; constructor <;> nlinarith [pi_lb, pi_ub]
  · norm_num
  · norm_num

lemma sin_2g_eq : Real.sin (2 * g_anom demo_dt) =
    Real.sin ((31488613 / 112500000 : ℝ) * π) := by
  unfold g_anom
  obtain ⟨k, hk⟩ := wrap_to_0_2pi_sub_int
    (radians 357.528 + radians 0.9856003 * nDays demo_dt)
  rw [hk, show 2 * (radians 357.528 + radians 0.9856003 * nDays demo_dt +
      (k : ℝ) * (2 * π)) =
      2 * (radians 357.528 + radians 0.9856003 * nDays demo_dt) +
        ((2 * k : ℤ) : ℝ) * (2 * π) by push_cast; ring,
    Real.sin_add_int_mul_two_pi, nDays_demo,
    show 2 * (radians 357.528 + radians 0.9856003 * (6968 : ℝ)) =
      (9031488613 / 112500000 : ℝ) * π by unfold radians; ring_nf]
  exact sin_qpi_reduce _ _ 40 (by norm_num)

lemma sin_2g_bounds : (0.7348 : ℝ) ≤ Real.sin (2 * g_anom demo_dt) ∧
    Real.sin (2 * g_anom demo_dt) ≤ 0.7972 := by
  rw [sin_2g_eq]
  apply sin_ival _ 0.87932796 0.000001
  · rw [abs_le]; constructor <;> norm_num
  · rw [abs_le]; constructor <;> nlinarith [pi_lb, pi_ub]
  · norm_num
  · norm_num

lemma eps_arg_eq : radians 23.439 - radians 0.0000004 * nDays demo_dt =
    (14647633 / 112500000 : ℝ) * π := by
  rw [nDays_demo]
  unfold radians
  ring_nf

lemma sin_eps_bounds : (0.3961 : ℝ) ≤ Real.sin (eps_incl demo_dt) ∧
    Real.sin (eps_incl demo_dt) ≤ 0.3991 := by
  unfold eps_incl
  rw [sin_wrap_to_0_2pi, eps_arg_eq]
  apply sin_ival _ 0.40903908 0.000001
  · rw [abs_le]; constructor <;> norm_num
  · rw [abs_le]; constructor <;> nlinarith [pi_lb, pi_ub]
  · norm_num
  · norm_num

lemma cos_eps_bounds : (0.9148 : ℝ) ≤ Real.cos (eps_incl demo_dt) ∧
    Real.cos (eps_incl demo_dt) ≤ 0.9179 := by
  unfold eps_incl
  rw [cos_wrap_to_0_2pi, eps_arg_eq]
  apply cos_ival _ 0.40903908 0.000001
  · rw [abs_le]; constructor <;> norm_num
  · rw [abs_le]; constructor <;> nlinarith [pi_lb, pi_ub]
  · norm_num
  · norm_num

lemma t_0_demo : t_0 demo_dt = (6968 / 36525 : ℝ) := by
  unfold t_0
  rw [nDays_demo]

lemma theta_g_h_demo : theta_g_h demo_dt = (18806986523 / 913125000 : ℝ) := by
  unfold theta_g_h pymod
  rw [t_0_demo]
  rw [show (6.697376 + 2400.05134 * ((6968 : ℝ) / 36525) +
      1.002738 * (((demo_dt.hour : ℤ) : ℝ) + ((demo_dt.minute : ℤ) : ℝ) / 60)) =
      (435191986523 / 913125000 : ℝ) by
    show (6.697376 + 2400.05134 * ((6968 : ℝ) / 36525) +
      1.002738 * (((12 : ℤ) : ℝ) + ((0 : ℤ) : ℝ) / 60)) = _
    push_cast
    norm_num]
  rw [show ⌊(435191986523 / 913125000 : ℝ) / 24⌋ = 19 from
    Int.floor_eq_iff.mpr (by norm_num)]
  norm_num

lemma theta_demo : theta_loc paris_lat_long demo_dt =
    (151591691603 / 87660000000 : ℝ) * π := by
  unfold theta_loc paris_lat_long
  rw [theta_g_h_demo]
  show (18806986523 / 913125000 : ℝ) * radians 15 + radians 2.332237 = _
  unfold radians
  ring_nf

lemma sin_theta_bounds :
    (-0.7752 : ℝ) ≤ Real.sin (theta_loc paris_lat_long demo_dt) ∧
    Real.sin (theta_loc paris_lat_long demo_dt) ≤ -0.7206 := by
  rw [theta_demo, sin_qpi_reduce _ (-23728308397 / 87660000000) 1 (by norm_num)]
  apply sin_ival _ (-0.8503842) 0.000001
  · rw [abs_le]; constructor <;> norm_num
  · rw [abs_le]; constructor <;> nlinarith [pi_lb, pi_ub]
  · norm_num
  · norm_num

lemma cos_theta_bounds :
    (0.6111 : ℝ) ≤ Real.cos (theta_loc paris_lat_long demo_dt) ∧
    Real.cos (theta_loc paris_lat_long demo_dt) ≤ 0.6657 := by
  rw [theta_demo, cos_qpi_reduce _ (-23728308397 / 87660000000) 1 (by norm_num)]
  apply cos_ival _ (-0.8503842) 0.000001
  · rw [abs_le]; constructor <;> norm_num
  · rw [abs_le]; constructor <;> nlinarith [pi_lb, pi_ub]
  · norm_num
  · norm_num

lemma phi_eq : radians (paris_lat_long.1) = (6107567 / 22500000 : ℝ) * π := by
  unfold paris_lat_long radians
  norm_num
  ring_nf

lemma sin_phi_bounds : (0.7218 : ℝ) ≤ Real.sin (radians paris_lat_long.1) ∧
    Real.sin (radians paris_lat_long.1) ≤ 0.7770 := by
  rw [phi_eq]
  apply sin_ival _ 0.85277723 0.000001
  · rw [abs_le]; constructor <;> norm_num
  · rw [abs_le]; constructor <;> nlinarith [pi_lb, pi_ub]
  · norm_num
  · norm_num

lemma cos_phi_bounds : (0.6088 : ℝ) ≤ Real.cos (radians paris_lat_long.1) ∧
    Real.cos (radians paris_lat_long.1) ≤ 0.6640 := by
  rw [phi_eq]
  apply cos_ival _ 0.85277723 0.000001
  · rw [abs_le]; constructor <;> norm_num
  · rw [abs_le]; constructor <;> nlinarith [pi_lb, pi_ub]
  · norm_num
  · norm_num

end C10Scenario

section C10ScenarioB

open Real

/-- Product of a nonpositive and a nonnegative interval. -/
lemma mul_ival_np {a b la ha lb hb : ℝ} (h1 : la ≤ a) (h2 : a ≤ ha)
    (h3 : lb ≤ b) (h4 : b ≤ hb) (h5 : ha ≤ 0) (h6 : 0 ≤ lb) :
    la * hb ≤ a * b ∧ a * b ≤ ha * lb := by
  constructor <;> nlinarith

lemma sin_wrap_shift_add (z u : ℝ) :
    Real.sin (wrap_to_0_2pi z + u) = Real.sin (z + u) := by
  obtain ⟨k, hk⟩ := wrap_to_0_2pi_sub_int z
  rw [hk, show z + (k : ℝ) * (2 * π) + u = (z + u) + (k : ℝ) * (2 * π) by ring]
  exact Real.sin_add_int_mul_two_pi _ k

lemma cos_wrap_shift_add (z u : ℝ) :
    Real.cos (wrap_to_0_2pi z + u) = Real.cos (z + u) := by
  obtain ⟨k, hk⟩ := wrap_to_0_2pi_sub_int z
  rw [hk, show z + (k : ℝ) * (2 * π) + u = (z + u) + (k : ℝ) * (2 * π) by ring]
  exact Real.cos_add_int_mul_two_pi _ k

lemma L0_eq : radians 280.460 + radians 0.9856474 * nDays demo_dt =
    (4467781927 / 112500000 : ℝ) * π := by
  rw [nDays_demo]
  unfold radians
  ring_nf

/-- The correction term of the ecliptical length in the demo scenario. -/
noncomputable def uA : ℝ :=
  radians 1.915 * Real.sin (g_anom demo_dt) +
    radians 0.01997 * Real.sin (2 * g_anom demo_dt)

lemma uA_bounds : (0.0144 : ℝ) ≤ uA ∧ uA ≤ 0.0146 := by
  have hc1 : (0.0334230 : ℝ) ≤ radians 1.915 ∧ radians 1.915 ≤ 0.0334231 := by
    unfold radians
    constructor <;> nlinarith [pi_lb, pi_ub]
  have hc2 : (0.0003485 : ℝ) ≤ radians 0.01997 ∧ radians 0.01997 ≤ 0.0003486 := by
    unfold radians
    constructor <;> nlinarith [pi_lb, pi_ub]
  have ht1 := mul_ival_pp hc1.1 hc1.2 sin_g_bounds.1 sin_g_bounds.2
    (by norm_num) (by norm_num)
  have ht2 := mul_ival_pp hc2.1 hc2.2 sin_2g_bounds.1 sin_2g_bounds.2
    (by norm_num) (by norm_num)
  unfold uA
  constructor <;> nlinarith [ht1.1, ht1.2, ht2.1, ht2.2]

lemma sinA_eq : Real.sin (A_ecl demo_dt) =
    Real.sin ((-32218073 / 112500000 : ℝ) * π + uA) := by
  unfold A_ecl
  rw [sin_wrap_to_0_2pi]
  have h1 : L_mean demo_dt + radians 1.915 * Real.sin (g_anom demo_dt) +
      radians 0.01997 * Real.sin (2 * g_anom demo_dt) =
      wrap_to_0_2pi (radians 280.460 + radians 0.9856474 * nDays demo_dt) + uA := by
    unfold L_mean uA
    ring
  rw [h1, sin_wrap_shift_add, L0_eq]
  exact sin_qpi_add_reduce _ _ _ 20 (by norm_num)

lemma cosA_eq : Real.cos (A_ecl demo_dt) =
    Real.cos ((-32218073 / 112500000 : ℝ) * π + uA) := by
  unfold A_ecl
  rw [cos_wrap_to_0_2pi]
  have h1 : L_mean demo_dt + radians 1.915 * Real.sin (g_anom demo_dt) +
      radians 0.01997 * Real.sin (2 * g_anom demo_dt) =
      wrap_to_0_2pi (radians 280.460 + radians 0.9856474 * nDays demo_dt) + uA := by
    unfold L_mean uA
    ring
  rw [h1, cos_wrap_shift_add, L0_eq]
  exact cos_qpi_add_reduce _ _ _ 20 (by norm_num)

lemma xA_dist : |(-32218073 / 112500000 : ℝ) * π + uA - (-0.8852099)| ≤ 0.0005 := by
  rw [abs_le]
  constructor <;> nlinarith [pi_lb, pi_ub, uA_bounds.1, uA_bounds.2]

lemma sinA_bounds : (-0.8022 : ℝ) ≤ Real.sin (A_ecl demo_dt) ∧
    Real.sin (A_ecl demo_dt) ≤ -0.7370 := by
  rw [sinA_eq]
  apply sin_ival _ (-0.8852099) 0.0005
  · rw [abs_le]; constructor <;> norm_num
  · exact xA_dist
  · norm_num
  · norm_num

lemma cosA_bounds : (0.5756 : ℝ) ≤ Real.cos (A_ecl demo_dt) ∧
    Real.cos (A_ecl demo_dt) ≤ 0.6408 := by
  rw [cosA_eq]
  apply cos_ival _ (-0.8852099) 0.0005
  · rw [abs_le]; constructor <;> norm_num
  · exact xA_dist
  · norm_num
  · norm_num

lemma cosA_pos : 0 < Real.cos (A_ecl demo_dt) := by
  linarith [cosA_bounds.1]

end C10ScenarioB

section C10ScenarioC

open Real

/-- The right-ascension branch taken in the demo scenario: `cos A > 0`. -/
lemma alpha_demo : alpha demo_dt = wrap_to_0_2pi
    (Real.arctan (Real.cos (eps_incl demo_dt) * Real.tan (A_ecl demo_dt))) := by
  unfold alpha
  rw [if_pos cosA_pos]

/-- Bounds on `tan A = sin A / cos A`. -/
lemma tanA_bounds : (-1.3937 : ℝ) ≤ Real.tan (A_ecl demo_dt) ∧
    Real.tan (A_ecl demo_dt) ≤ -1.1501 := by
  rw [Real.tan_eq_sin_div_cos]
  apply div_ival _ _ _ _ cosA_pos
  · nlinarith [cosA_bounds.1, cosA_bounds.2, sinA_bounds.1]
  · nlinarith [cosA_bounds.1, cosA_bounds.2, sinA_bounds.2]

/-- Bounds on `v = cos ε * tan A`, the arctan argument of the right
ascension. -/
lemma v_bounds : (-1.2793 : ℝ) ≤
      Real.cos (eps_incl demo_dt) * Real.tan (A_ecl demo_dt) ∧
    Real.cos (eps_incl demo_dt) * Real.tan (A_ecl demo_dt) ≤ -1.0521 := by
  have h := mul_ival_pn cos_eps_bounds.1 cos_eps_bounds.2 tanA_bounds.1
    tanA_bounds.2 (by norm_num) (by norm_num)
  constructor <;> nlinarith [h.1, h.2]

/-- Bounds on `W = sqrt (1 + v^2)`. -/
lemma w_bounds : (1.4515 : ℝ) ≤
      Real.sqrt (1 + (Real.cos (eps_incl demo_dt) * Real.tan (A_ecl demo_dt)) ^ 2) ∧
    Real.sqrt (1 + (Real.cos (eps_incl demo_dt) * Real.tan (A_ecl demo_dt)) ^ 2) ≤
      1.6239 := by
  apply sqrt_ival _ _ _ (by norm_num) (by norm_num)
  · nlinarith [v_bounds.1, v_bounds.2]
  · nlinarith [v_bounds.1, v_bounds.2]

/-- `sin τ` written through the arctan branch:
`sin (θ - α) = (sin θ - cos θ * v) / sqrt (1 + v^2)`. -/
lemma sin_tau_eq : Real.sin (tau paris_lat_long demo_dt) =
    (Real.sin (theta_loc paris_lat_long demo_dt) -
      Real.cos (theta_loc paris_lat_long demo_dt) *
        (Real.cos (eps_incl demo_dt) * Real.tan (A_ecl demo_dt))) /
      Real.sqrt (1 + (Real.cos (eps_incl demo_dt) * Real.tan (A_ecl demo_dt)) ^ 2) := by
  unfold tau
  rw [alpha_demo]
  obtain ⟨k, hk⟩ := wrap_to_0_2pi_sub_int
    (Real.arctan (Real.cos (eps_incl demo_dt) * Real.tan (A_ecl demo_dt)))
  rw [hk, show theta_loc paris_lat_long demo_dt -
      (Real.arctan (Real.cos (eps_incl demo_dt) * Real.tan (A_ecl demo_dt)) +
        (k : ℝ) * (2 * π)) =
      (theta_loc paris_lat_long demo_dt -
        Real.arctan (Real.cos (eps_incl demo_dt) * Real.tan (A_ecl demo_dt))) +
        ((-k : ℤ) : ℝ) * (2 * π) by push_cast; ring,
    Real.sin_add_int_mul_two_pi, Real.sin_sub, Real.cos_arctan, Real.sin_arctan]
  have hW : 0 < Real.sqrt (1 +
      (Real.cos (eps_incl demo_dt) * Real.tan (A_ecl demo_dt)) ^ 2) := by
    linarith [w_bounds.1]
  field_simp

/-- `cos τ` through the same branch. -/
lemma cos_tau_eq : Real.cos (tau paris_lat_long demo_dt) =
    (Real.cos (theta_loc paris_lat_long demo_dt) +
      Real.sin (theta_loc paris_lat_long demo_dt) *
        (Real.cos (eps_incl demo_dt) * Real.tan (A_ecl demo_dt))) /
      Real.sqrt (1 + (Real.cos (eps_incl demo_dt) * Real.tan (A_ecl demo_dt)) ^ 2) := by
  unfold tau
  rw [alpha_demo]
  obtain ⟨k, hk⟩ := wrap_to_0_2pi_sub_int
    (Real.arctan (Real.cos (eps_incl demo_dt) * Real.tan (A_ecl demo_dt)))
  rw [hk, show theta_loc paris_lat_long demo_dt -
      (Real.arctan (Real.cos (eps_incl demo_dt) * Real.tan (A_ecl demo_dt)) +
        (k : ℝ) * (2 * π)) =
      (theta_loc paris_lat_long demo_dt -
        Real.arctan (Real.cos (eps_incl demo_dt) * Real.tan (A_ecl demo_dt))) +
        ((-k : ℤ) : ℝ) * (2 * π) by push_cast; ring,
    Real.cos_add_int_mul_two_pi, Real.cos_sub, Real.cos_arctan, Real.sin_arctan]
  have hW : 0 < Real.sqrt (1 +
      (Real.cos (eps_incl demo_dt) * Real.tan (A_ecl demo_dt)) ^ 2) := by
    linarith [w_bounds.1]
  field_simp

lemma sin_tau_bounds : (-0.0912 : ℝ) ≤ Real.sin (tau paris_lat_long demo_dt) ∧
    Real.sin (tau paris_lat_long demo_dt) ≤ 0.0904 := by
  rw [sin_tau_eq]
  have hctv := mul_ival_pn cos_theta_bounds.1 cos_theta_bounds.2 v_bounds.1
    v_bounds.2 (by norm_num) (by norm_num)
  apply div_ival _ _ _ _ (by linarith [w_bounds.1])
  · nlinarith [sin_theta_bounds.1, hctv.2, w_bounds.1, w_bounds.2]
  · nlinarith [sin_theta_bounds.2, hctv.1, w_bounds.1, w_bounds.2]

lemma cos_tau_bounds : (0.8431 : ℝ) ≤ Real.cos (tau paris_lat_long demo_dt) ∧
    Real.cos (tau paris_lat_long demo_dt) ≤ 1.1420 := by
  rw [cos_tau_eq]
  have hstv := mul_ival_nn sin_theta_bounds.1 sin_theta_bounds.2 v_bounds.1
    v_bounds.2 (by norm_num) (by norm_num)
  apply div_ival _ _ _ _ (by linarith [w_bounds.1])
  · nlinarith [cos_theta_bounds.1, hstv.1, w_bounds.1, w_bounds.2]
  · nlinarith [cos_theta_bounds.2, hstv.2, w_bounds.1, w_bounds.2]

/-- Bounds on `s = sin ε * sin A`, the declination sine. -/
lemma s_bounds : (-0.3202 : ℝ) ≤
      Real.sin (eps_incl demo_dt) * Real.sin (A_ecl demo_dt) ∧
    Real.sin (eps_incl demo_dt) * Real.sin (A_ecl demo_dt) ≤ -0.2915 := by
  have h := mul_ival_pn sin_eps_bounds.1 sin_eps_bounds.2 sinA_bounds.1
    sinA_bounds.2 (by norm_num) (by norm_num)
  constructor <;> nlinarith [h.1, h.2]

lemma cos_delta_eq : Real.cos (delta demo_dt) =
    Real.sqrt (1 - (Real.sin (eps_incl demo_dt) * Real.sin (A_ecl demo_dt)) ^ 2) := by
  unfold delta
  rw [cos_wrap_to_0_2pi, Real.cos_arcsin]

lemma sin_delta_eq : Real.sin (delta demo_dt) =
    Real.sin (eps_incl demo_dt) * Real.sin (A_ecl demo_dt) := by
  unfold delta
  rw [sin_wrap_to_0_2pi, Real.sin_arcsin (by nlinarith [s_bounds.1])
    (by nlinarith [s_bounds.2])]

lemma tan_delta_eq : Real.tan (delta demo_dt) =
    (Real.sin (eps_incl demo_dt) * Real.sin (A_ecl demo_dt)) /
      Real.sqrt (1 - (Real.sin (eps_incl demo_dt) * Real.sin (A_ecl demo_dt)) ^ 2) := by
  unfold delta
  rw [tan_wrap_to_0_2pi, Real.tan_arcsin]

lemma cos_delta_bounds : (0.9473 : ℝ) ≤ Real.cos (delta demo_dt) ∧
    Real.cos (delta demo_dt) ≤ 0.9567 := by
  rw [cos_delta_eq]
  apply sqrt_ival _ _ _ (by norm_num) (by norm_num)
  · nlinarith [s_bounds.1, s_bounds.2]
  · nlinarith [s_bounds.1, s_bounds.2]

lemma tan_delta_bounds : (-0.3381 : ℝ) ≤ Real.tan (delta demo_dt) ∧
    Real.tan (delta demo_dt) ≤ -0.3046 := by
  rw [tan_delta_eq, show Real.sqrt (1 -
      (Real.sin (eps_incl demo_dt) * Real.sin (A_ecl demo_dt)) ^ 2) =
      Real.cos (delta demo_dt) from cos_delta_eq.symm]
  apply div_ival _ _ _ _ (by linarith [cos_delta_bounds.1])
  · nlinarith [s_bounds.1, cos_delta_bounds.1, cos_delta_bounds.2]
  · nlinarith [s_bounds.2, cos_delta_bounds.1, cos_delta_bounds.2]

end C10ScenarioC

section C10ScenarioD

open Real

/-- The elevation of the sun at Paris on 2019-01-27 12:00 UTC is positive. -/
lemma elev_pos_demo : 0 < (calc_solar_position paris_lat_long demo_dt).2 := by
  show 0 < elev paris_lat_long demo_dt
  unfold elev
  apply Real.arcsin_pos.mpr
  rw [sin_delta_eq]
  have h1 := mul_ival_pp cos_delta_bounds.1 cos_delta_bounds.2
    cos_tau_bounds.1 cos_tau_bounds.2 (by norm_num) (by norm_num)
  have h2 := mul_ival_pp h1.1 h1.2 cos_phi_bounds.1 cos_phi_bounds.2
    (by norm_num) (by norm_num)
  have h3 := mul_ival_np s_bounds.1 s_bounds.2 sin_phi_bounds.1
    sin_phi_bounds.2 (by norm_num) (by norm_num)
  nlinarith [h2.1, h3.1]

/-- Bounds on the second `atan2` argument of the azimuth. -/
lemma X_azim_bounds : (0.7939 : ℝ) ≤
      Real.cos (tau paris_lat_long demo_dt) * Real.sin (radians paris_lat_long.1) -
        Real.tan (delta demo_dt) * Real.cos (radians paris_lat_long.1) ∧
    Real.cos (tau paris_lat_long demo_dt) * Real.sin (radians paris_lat_long.1) -
        Real.tan (delta demo_dt) * Real.cos (radians paris_lat_long.1) ≤ 1.1119 := by
  have hx1 := mul_ival_pp cos_tau_bounds.1 cos_tau_bounds.2 sin_phi_bounds.1
    sin_phi_bounds.2 (by norm_num) (by norm_num)
  have hx2 := mul_ival_np tan_delta_bounds.1 tan_delta_bounds.2 cos_phi_bounds.1
    cos_phi_bounds.2 (by norm_num) (by norm_num)
  constructor <;> nlinarith [hx1.1, hx1.2, hx2.1, hx2.2]

/-- The azimuth after the final `wrap_to_pi (azim + pi)` has cosine
`-X / sqrt (X*X + S*S)`, with `S = sin τ` and `X` the second `atan2`
argument. -/
lemma cos_azim_eq : Real.cos ((calc_solar_position paris_lat_long demo_dt).1) =
    -((Real.cos (tau paris_lat_long demo_dt) * Real.sin (radians paris_lat_long.1) -
        Real.tan (delta demo_dt) * Real.cos (radians paris_lat_long.1)) /
      Real.sqrt
        ((Real.cos (tau paris_lat_long demo_dt) * Real.sin (radians paris_lat_long.1) -
          Real.tan (delta demo_dt) * Real.cos (radians paris_lat_long.1)) *
         (Real.cos (tau paris_lat_long demo_dt) * Real.sin (radians paris_lat_long.1) -
          Real.tan (delta demo_dt) * Real.cos (radians paris_lat_long.1)) +
         Real.sin (tau paris_lat_long demo_dt) *
           Real.sin (tau paris_lat_long demo_dt))) := by
  show Real.cos (wrap_to_pi (azim_raw paris_lat_long demo_dt + π)) = _
  rw [cos_wrap_to_pi, Real.cos_add, Real.cos_pi, Real.sin_pi]
  have hz : (⟨Real.cos (tau paris_lat_long demo_dt) * Real.sin (radians paris_lat_long.1) -
      Real.tan (delta demo_dt) * Real.cos (radians paris_lat_long.1),
      Real.sin (tau paris_lat_long demo_dt)⟩ : ℂ) ≠ 0 := by
    intro h
    have hre := congrArg Complex.re h
    simp only [Complex.zero_re] at hre
    have := X_azim_bounds.1
    rw [hre] at this
    norm_num at this
  show Real.cos (atan2 (Real.sin (tau paris_lat_long demo_dt)) _) * (-1) -
    Real.sin (atan2 _ _) * 0 = _
  unfold atan2
  rw [Complex.cos_arg hz, Complex.abs_apply, Complex.normSq_mk]
  ring

/-- The azimuth at the demo time lies in the southern quadrant:
within `π/4` of due south (`±π`). -/
lemma azim_south_demo :
    π - |(calc_solar_position paris_lat_long demo_dt).1| < π / 4 := by
  have hmem : (calc_solar_position paris_lat_long demo_dt).1 ∈ Set.Ioc (-π) π :=
    wrap_to_pi_mem _
  have habs : |(calc_solar_position paris_lat_long demo_dt).1| ≤ π :=
    abs_le.mpr ⟨le_of_lt hmem.1, hmem.2⟩
  have hS := sin_tau_bounds
  have hX := X_azim_bounds
  have habsz : (0.7939 : ℝ) ≤ Real.sqrt
      ((Real.cos (tau paris_lat_long demo_dt) * Real.sin (radians paris_lat_long.1) -
        Real.tan (delta demo_dt) * Real.cos (radians paris_lat_long.1)) *
       (Real.cos (tau paris_lat_long demo_dt) * Real.sin (radians paris_lat_long.1) -
        Real.tan (delta demo_dt) * Real.cos (radians paris_lat_long.1)) +
       Real.sin (tau paris_lat_long demo_dt) *
         Real.sin (tau paris_lat_long demo_dt)) ∧ Real.sqrt
      ((Real.cos (tau paris_lat_long demo_dt) * Real.sin (radians paris_lat_long.1) -
        Real.tan (delta demo_dt) * Real.cos (radians paris_lat_long.1)) *
       (Real.cos (tau paris_lat_long demo_dt) * Real.sin (radians paris_lat_long.1) -
        Real.tan (delta demo_dt) * Real.cos (radians paris_lat_long.1)) +
       Real.sin (tau paris_lat_long demo_dt) *
         Real.sin (tau paris_lat_long demo_dt)) ≤ 1.1157 := by
    apply sqrt_ival _ _ _ (by norm_num) (by norm_num)
    · nlinarith [mul_self_nonneg (Real.sin (tau paris_lat_long demo_dt)),
        mul_le_mul hX.1 hX.1 (by norm_num) (by linarith [hX.1])]
    · nlinarith [mul_le_mul hX.2 hX.2 (by linarith [hX.1]) (by norm_num),
        mul_nonneg
          (show (0:ℝ) ≤ Real.sin (tau paris_lat_long demo_dt) + 0.0912 by
            linarith [hS.1])
          (show (0:ℝ) ≤ 0.0912 - Real.sin (tau paris_lat_long demo_dt) by
            linarith [hS.2])]
  have hcos : Real.cos ((calc_solar_position paris_lat_long demo_dt).1) ≤ -0.7115 := by
    rw [cos_azim_eq]
    have hD := habsz
    have hdiv : (0.7115 : ℝ) * Real.sqrt _ ≤ _ := le_trans
      (by nlinarith [hD.2] :
        (0.7115 : ℝ) * Real.sqrt
          ((Real.cos (tau paris_lat_long demo_dt) * Real.sin (radians paris_lat_long.1) -
            Real.tan (delta demo_dt) * Real.cos (radians paris_lat_long.1)) *
           (Real.cos (tau paris_lat_long demo_dt) * Real.sin (radians paris_lat_long.1) -
            Real.tan (delta demo_dt) * Real.cos (radians paris_lat_long.1)) +
           Real.sin (tau paris_lat_long demo_dt) *
             Real.sin (tau paris_lat_long demo_dt)) ≤ 0.7939) hX.1
    have h1 := (div_ival _ _ 0.7115 1.5
      (by linarith [hD.1] : (0 : ℝ) < Real.sqrt _) hdiv (by nlinarith [hX.2, hD.1])).1
    linarith [h1]
  have hsqrt2 : Real.sqrt 2 ≤ 1.4143 :=
    (sqrt_ival 2 1.41 1.4143 (by norm_num) (by norm_num) (by norm_num)
      (by norm_num)).2
  by_contra hcon
  push_neg at hcon
  have h0 : (0 : ℝ) ≤ π / 4 := by positivity
  have h2 : π - |(calc_solar_position paris_lat_long demo_dt).1| ≤ π :=
    by linarith [abs_nonneg ((calc_solar_position paris_lat_long demo_dt).1)]
  have hmono := Real.cos_le_cos_of_nonneg_of_le_pi h0 h2 hcon
  rw [Real.cos_pi_sub, Real.cos_abs, Real.cos_pi_div_four] at hmono
  linarith

end C10ScenarioD

end Paris

/-- **C4**: calling `apply` with `steps = 1` sets every affected byte of the
current buffer `leds_0` exactly to the corresponding byte of the target
buffer `leds_1` (no residual blending), for all byte values in `[0, 255]`. -/
theorem C4_apply_single_step_exact (pixels : Option (List ℕ))
    (leds_0 leds_1 : ℕ → ℤ)
    (hbytes : ∀ k, 0 ≤ leds_0 k ∧ leds_0 k ≤ 255 ∧ 0 ≤ leds_1 k ∧ leds_1 k ≤ 255)
    (k : ℕ) (hk : k ∈ Paris.apply_bytes pixels) :
    Paris.apply 1 pixels leds_1 leds_0 k = leds_1 k := by
  unfold Paris.apply
  rw [show List.range 1 = [0] from rfl]
  simp only [List.foldl_cons, List.foldl_nil]
  rw [show (((0 : ℕ) : ℚ) + 1) / ((1 : ℕ) : ℚ) = 1 by norm_num]
  exact Paris.apply_iteration_one _ _ _ _ hk

/-- Witness for C4 at a concrete input. -/
theorem C4_apply_single_step_exact_witness :
    Paris.apply 1 none (fun _ => 255) (fun _ => 0) 0 = 255 :=
  C4_apply_single_step_exact none (fun _ => 0) (fun _ => 255)
    (fun k => by norm_num) 0
    (by
      show 0 ∈ List.range (Paris.n * 4)
      exact List.mem_range.mpr (by norm_num [Paris.n]))

/-- **C5**: for every `steps ≥ 1` (not only `steps = 1`), `apply` ends with
every affected byte of the current buffer equal to the corresponding target
byte: the final iteration uses fraction `t = steps / steps = 1` and integer
truncation of an exact byte value is exact, so the intermediate truncating
steps never prevent exact convergence. -/
theorem C5_apply_converges_exactly (steps : ℕ) (hsteps : 1 ≤ steps)
    (pixels : Option (List ℕ)) (leds_0 leds_1 : ℕ → ℤ)
    (k : ℕ) (hk : k ∈ Paris.apply_bytes pixels) :
    Paris.apply steps pixels leds_1 leds_0 k = leds_1 k := by
  obtain ⟨m, rfl⟩ : ∃ m, steps = m + 1 := ⟨steps - 1, by omega⟩
  unfold Paris.apply
  rw [show m + 1 = Nat.succ m from rfl, List.range_succ, List.foldl_append]
  simp only [List.foldl_cons, List.foldl_nil]
  rw [show ((m : ℚ) + 1) / ((Nat.succ m : ℕ) : ℚ) = 1 by
    push_cast
    rw [div_self]
    positivity]
  exact Paris.apply_iteration_one _ _ _ _ hk

/-- Witness for C5 at a concrete input with `steps = 3`. -/
theorem C5_apply_converges_exactly_witness :
    Paris.apply 3 (some [4]) (fun _ => 200) (fun _ => 17) 6 = 200 :=
  C5_apply_converges_exactly 3 (by norm_num) (some [4]) (fun _ => 17)
    (fun _ => 200) 6
    (by
      show 6 ∈ [4].flatMap Paris.pixel_bytes
      simp [Paris.pixel_bytes])

/-- **C6**: for every center, every `size ≥ 1` and every 4-channel color `c`,
`set_area` with `primary == secondary == c` writes exactly `c` to every pixel
of the painted window (both parities of `size`). -/
theorem C6_uniform_window (center : ℤ) (size : ℕ) (hsize : 1 ≤ size)
    (c : Fin 4 → ℤ) (buf : ℕ → ℤ)
    (i : ℤ) (hi : i ∈ Paris.set_area_range center size) (ch : Fin 4) :
    (Paris.set_area center size c c buf).1
      ((i % (Paris.n : ℤ)).toNat * 4 + ch.val) = c ch := by
  unfold Paris.set_area
  have hmem : (i % (Paris.n : ℤ)).toNat * 4 + ch.val ∈
      Paris.pixel_bytes ((i % (Paris.n : ℤ)).toNat * 4) := by
    fin_cases ch <;> simp [Paris.pixel_bytes]
  rw [Paris.set_area_uniform_enter center size c _ (buf, ([] : List ℕ)) _
    ⟨i, hi, hmem⟩]
  congr 1
  have hlt : ch.val < 4 := ch.isLt
  simp only [Paris.byteChan, Fin.ext_iff]
  omega

/-- Witness for C6 at a concrete input. -/
theorem C6_uniform_window_witness :
    (Paris.set_area 0 1 (fun _ => 7) (fun _ => 7) (fun _ => 0)).1 0 = 7 :=
  C6_uniform_window 0 1 (by norm_num) (fun _ => 7) (fun _ => 0) 0
    (by decide) 0

/-- **C7**: the intercardinal indices `south_east = 0`, `south_west = cols`,
`north_west = cols + rows`, `north_east = 2*cols + rows` partition the ring of
`n = 2*cols + 2*rows` pixels into four contiguous non-overlapping arcs
(south `[0, cols)`, west `[cols, cols+rows)`, north `[cols+rows, 2*cols+rows)`,
east `[2*cols+rows, n)`) whose lengths sum to `n`, each arc length being the
side's pixel density (`cols` horizontally, `rows` vertically). -/
theorem C7_cardinals_partition :
    Paris.n = 2 * Paris.cols + 2 * Paris.rows ∧
    (Paris.cardinals Paris.Side.south).2.2 = (Paris.south_east, Paris.south_west) ∧
    (Paris.cardinals Paris.Side.west).2.2 = (Paris.south_west, Paris.north_west) ∧
    (Paris.cardinals Paris.Side.north).2.2 = (Paris.north_west, Paris.north_east) ∧
    (Paris.cardinals Paris.Side.east).2.2 = (Paris.north_east, Paris.n) ∧
    Paris.south_east = 0 ∧
    Paris.south_east < Paris.south_west ∧
    Paris.south_west < Paris.north_west ∧
    Paris.north_west < Paris.north_east ∧
    Paris.north_east < Paris.n ∧
    Paris.south_west - Paris.south_east = Paris.cols ∧
    (Paris.cardinals Paris.Side.south).2.1 = Paris.cols ∧
    Paris.north_west - Paris.south_west = Paris.rows ∧
    (Paris.cardinals Paris.Side.west).2.1 = Paris.rows ∧
    Paris.north_east - Paris.north_west = Paris.cols ∧
    (Paris.cardinals Paris.Side.north).2.1 = Paris.cols ∧
    Paris.n - Paris.north_east = Paris.rows ∧
    (Paris.cardinals Paris.Side.east).2.1 = Paris.rows ∧
    (Paris.south_west - Paris.south_east) + (Paris.north_west - Paris.south_west) +
      (Paris.north_east - Paris.north_west) + (Paris.n - Paris.north_east) = Paris.n := by
  decide

/-- **C1**: for every azimuth `θ ∈ [0, 2π)`, the frame mapper
(`intersect_angle_frame` composed with `northclockwise2math`) returns `none`
or an led index `i` with `0 ≤ i ≤ n - 1` (the final value is hard-clamped);
and every byte offset recorded by `set_area` starts a 4-byte slice inside
the `n`-pixel buffer, because pixel indices are reduced modulo `n`. -/
theorem C1_no_out_of_range_index :
    (∀ θ : ℝ, θ ∈ Set.Ico 0 (2 * Real.pi) → ∀ i : ℤ,
      Paris.intersect_angle_frame (Paris.northclockwise2math θ) = some i →
        0 ≤ i ∧ i ≤ (Paris.n : ℤ) - 1) ∧
    (∀ (center : ℤ) (size : ℕ) (primary secondary : Fin 4 → ℤ) (buf : ℕ → ℤ),
      ∀ idx ∈ (Paris.set_area center size primary secondary buf).2,
        idx + 4 ≤ Paris.n * 4) := by
  constructor
  · intro θ _ i hi
    unfold Paris.intersect_angle_frame Paris.intersect_line_frame at hi
    obtain ⟨r, _, rfl⟩ := Option.map_eq_some'.mp hi
    exact Paris.clamp_mem _ 0 ((Paris.n : ℤ) - 1) (by norm_num [Paris.n])
  · intro center size primary secondary buf
    exact Paris.set_area_changed_le center size primary secondary buf

/-- Witness for C1 at the concrete azimuth `π` (compass south, mapped to led
26) and a concrete one-pixel `set_area` call. -/
theorem C1_no_out_of_range_index_witness :
    (0 ≤ (26 : ℤ) ∧ (26 : ℤ) ≤ (Paris.n : ℤ) - 1) ∧ 0 + 4 ≤ Paris.n * 4 := by
  constructor
  · exact C1_no_out_of_range_index.1 Real.pi
      ⟨Real.pi_pos.le, by linarith [Real.pi_pos]⟩ 26
      Paris.intersect_angle_frame_south
  · exact C1_no_out_of_range_index.2 0 1 (fun _ => 7) (fun _ => 7) (fun _ => 0) 0
      (by rw [Paris.set_area_changed]; decide)

/-- **C2 counterexample**: the compass-south ray maps to led 26, which is
*not* the precomputed south-center intercardinal index
`cardinals['south'][0] = 27`, so the claim as stated fails. -/
theorem C2_counterexample :
    ¬ (Paris.intersect_angle_frame (Paris.northclockwise2math Real.pi) =
        some ((Paris.cardinals Paris.Side.south).1 : ℤ)) := by
  rw [Paris.intersect_angle_frame_south,
    show ((Paris.cardinals Paris.Side.south).1 : ℤ) = 27 by decide]
  intro h
  exact absurd (Option.some.inj h) (by decide)

/-- **C2 (amended)**: for the compass-south direction (math-convention ray
toward negative `y`), the intersection is the south-side midpoint
`(0, -height/2)`, the perimeter unwinding yields `cm = width/2 = 44.75`, and
the returned led index is 26 — one *less* than the precomputed south-center
intercardinal index `cardinals['south'][0] = 27`, because of the `- 1`
calibration offset in `int(round(cm * 0.6 - 1))`. -/
theorem C2_south_midpoint_amended :
    Paris.get_border_intersections (Paris.width ℝ) (Paris.height ℝ)
      (Paris.cross ((0:ℝ), 0, 1)
        (Real.cos (Paris.northclockwise2math Real.pi),
         Real.sin (Paris.northclockwise2math Real.pi), 1)) =
      some (Paris.Side.south, 0, -(Paris.height ℝ) / 2) ∧
    Paris.unwind_cm Paris.Side.south (0 : ℝ) (-(Paris.height ℝ) / 2) =
      Paris.width ℝ / 2 ∧
    Paris.width ℝ / 2 = 44.75 ∧
    Paris.intersect_angle_frame (Paris.northclockwise2math Real.pi) = some 26 ∧
    (26 : ℤ) = ((Paris.cardinals Paris.Side.south).1 : ℤ) - 1 := by
  refine ⟨?_, ?_, ?_, Paris.intersect_angle_frame_south, by decide⟩
  · rw [Paris.cos_northclockwise2math_pi, Paris.sin_northclockwise2math_pi,
      show -(Paris.height ℝ) / 2 = -30.25 by norm_num [Paris.height]]
    exact Paris.south_line_eval
  · unfold Paris.unwind_cm
    ring
  · norm_num [Paris.width]

/-- **C9**: `wrap_to_pi` is idempotent and its result always lies in the
half-open interval `(-π, π]`. -/
theorem C9_wrap_to_pi_idempotent (x : ℝ) :
    Paris.wrap_to_pi (Paris.wrap_to_pi x) = Paris.wrap_to_pi x ∧
    Paris.wrap_to_pi x ∈ Set.Ioc (-Real.pi) Real.pi :=
  ⟨Paris.wrap_to_pi_eq_self (Paris.wrap_to_pi_mem x), Paris.wrap_to_pi_mem x⟩

/-- **C3 counterexample**: the clock-hand path does *not* skip drawing when
the frame mapper reports an absence: multiplying the absent index by 4
(`intersect_angle_frame(...) * 4` in the list comprehension) raises a
`TypeError`, modelled as `Except.error`. -/
theorem C3_counterexample :
    Paris.clock_hands none (some 0) (some 0) = Except.error () := rfl

/-- **C3 (amended)**: a missing border intersection propagates as `None`
through the frame mapper, and the solar-marker path skips drawing the marker
(target buffer unchanged); the clock-hand path however *raises* (a
`TypeError` from `None * 4`) instead of skipping. -/
theorem C3_none_propagation_amended :
    (∀ c s : ℝ,
      Paris.get_border_intersections (Paris.width ℝ) (Paris.height ℝ)
        (Paris.cross ((0:ℝ), 0, 1) (c, s, 1)) = none →
      Paris.intersect_line_frame c s = none) ∧
    (∀ (e : ℝ) (leds_1 : ℕ → ℤ), Paris.solar_draw none e leds_1 = leds_1) ∧
    (∀ o_h o_m o_s : Option ℤ, (o_h = none ∨ o_m = none ∨ o_s = none) →
      Paris.clock_hands o_h o_m o_s = Except.error ()) := by
  refine ⟨?_, ?_, ?_⟩
  · intro c s h
    unfold Paris.intersect_line_frame
    rw [h]
    rfl
  · intro e leds_1
    rfl
  · intro o_h o_m o_s h
    rcases h with rfl | rfl | rfl
    · rfl
    · cases o_h <;> rfl
    · cases o_h <;> cases o_m <;> rfl

/-- Witness for the amended C3 at concrete inputs: the degenerate zero
direction propagates to `None`, the solar path leaves the buffer unchanged,
and the clock path raises. -/
theorem C3_none_propagation_amended_witness :
    Paris.intersect_line_frame (0 : ℝ) 0 = none ∧
    Paris.solar_draw none 1 (fun _ => 0) = (fun _ => 0) ∧
    Paris.clock_hands (some 0) none (some 0) = Except.error () :=
  ⟨C3_none_propagation_amended.1 0 0 Paris.degenerate_axis_none,
   C3_none_propagation_amended.2.1 1 (fun _ => 0),
   C3_none_propagation_amended.2.2 (some 0) none (some 0) (Or.inr (Or.inl rfl))⟩

/-- **C8**: the Julian-day expression in `calc_solar_position` does *not*
compute the standard Julian day number: the Fliegel-Van-Flandern formula it
transcribes is written for truncating integer division, but Python `//` is
floor division, so `jd(2000, 1, 1) = 2451547 ≠ 2451545` (hence
`n = jd - 2451545` does not count days since 2000-01-01 12:00 UTC), and the
value even *decreases* from Jan 31 to Feb 1 and jumps by 3 from Feb 28 to
Mar 1 — contradicting the code's own comments. -/
theorem C8_jd_floor_division_bug :
    Paris.jd 2000 1 1 = 2451547 ∧
    Paris.jd 2000 1 1 ≠ 2451545 ∧
    Paris.validDate 1999 1 31 ∧ Paris.nextDate 1999 1 31 = (1999, 2, 1) ∧
    Paris.jd 1999 2 1 = Paris.jd 1999 1 31 - 1 ∧
    Paris.validDate 2019 2 28 ∧ Paris.nextDate 2019 2 28 = (2019, 3, 1) ∧
    Paris.jd 2019 3 1 = Paris.jd 2019 2 28 + 3 := by
  refine ⟨by decide, by decide, by decide, by decide, by decide, by decide,
    by decide, by decide⟩

/-- **C10**: `calc_solar_position` at Paris coordinates
`(48.860536, 2.332237)` and observation time 2019-01-27 12:00:00 UTC returns
a strictly positive elevation and an azimuth within `π/4` of due south
(`±π` in the north-clockwise radian convention, i.e. near 180°). -/
theorem C10_solar_position_paris_noon :
    0 < (Paris.calc_solar_position (48.860536, 2.332237)
      ⟨2019, 1, 27, 12, 0, 0, 6, 27⟩).2 ∧
    Real.pi - |(Paris.calc_solar_position (48.860536, 2.332237)
      ⟨2019, 1, 27, 12, 0, 0, 6, 27⟩).1| < Real.pi / 4 := by
  have e1 : ((48.860536, 2.332237) : ℝ × ℝ) = Paris.paris_lat_long := rfl
  have e2 : (⟨2019, 1, 27, 12, 0, 0, 6, 27⟩ : Paris.DateTime) = Paris.demo_dt := rfl
  rw [e1, e2]
  exact ⟨Paris.elev_pos_demo, Paris.azim_south_demo⟩
